import Mathlib

set_option maxRecDepth 400000

/-!
Shallow embedding of the memory-consolidation trigger path of this
repository: the cron-based hook (`src/hooks/memory-consolidation.ts`,
Strategy B in the spec) and the direct-dispatch bundled hook
(`src/hooks/bundled/session-memory/handler.ts`, Strategy A).

External collaborators (config loading, cron store persistence, gateway
transport, heartbeat wake, UUID generation, host clock) are modelled as
explicit environment fields; side effects are recorded as an effect list.
-/

namespace OpenClaw

/-! String scanning primitives (explicit, kernel-computable) -/

/-- Boolean list-prefix test, used by the literal replacement scanner. -/
def isPrefixL : List Char → List Char → Bool
  | [], _ => true
  | _ :: _, [] => false
  | a :: as, b :: bs => a == b && isPrefixL as bs

/-- Boolean substring-occurrence test on character lists. -/
def isSubL : List Char → List Char → Bool
  | pat, [] => pat.isEmpty
  | pat, b :: bs => isPrefixL pat (b :: bs) || isSubL pat bs

/-- Whether `sub` occurs contiguously in `s` (Boolean). -/
def containsSubstr (s sub : String) : Bool :=
  isSubL sub.toList s.toList

/-- Fuel-indexed scanner for global literal replacement, mirroring the
semantics of JavaScript `String.prototype.replace` with a global literal
pattern: scan left to right, replace each match, resume after the match
(the replacement text is not rescanned in the same pass). -/
def replaceAllAux (pat repl : List Char) : Nat → List Char → List Char
  | _, [] => []
  | 0, s => s
  | fuel + 1, c :: cs =>
    if isPrefixL pat (c :: cs) then
      repl ++ replaceAllAux pat repl fuel (cs.drop (pat.length - 1))
    else
      c :: replaceAllAux pat repl fuel cs

/-- Replace every occurrence of the literal `pat` in `s` by `repl`,
as JavaScript `s.replace(/pat/g, repl)` does for a `$`-free `repl`. -/
def replaceAll (s pat repl : String) : String :=
  String.mk (replaceAllAux pat.toList repl.toList s.toList.length s.toList)

/-! Data model (from the TypeScript sources) -/

/-- The slice of `SessionEntry` this code reads; a missing/undefined field
behaves exactly like the empty string in the handlers' truthiness checks,
so both are modelled as `""`. -/
structure SessionEntry where
  sessionId : String
  sessionFile : String
deriving DecidableEq, Repr

structure EventContext where
  previousSessionEntry : Option SessionEntry
  sessionEntry : Option SessionEntry
deriving DecidableEq, Repr

/-- Hook event: `{ type, action, sessionKey, context }`. -/
structure HookEvent where
  type : String
  action : String
  sessionKey : String
  context : EventContext
deriving DecidableEq, Repr

/-- Configuration record `MemoryConsolidationConfig` from `memory-consolidation.ts` /
`types.memory.ts`; `enabled` absent is falsy, like `false`. -/
structure MemoryConsolidationConfig where
  enabled : Bool
  prompt : Option String
  model : Option String
  thinking : Option String
  timeoutSeconds : Option Nat
deriving DecidableEq, Repr

/-- Truthiness of `cfg.memory?.consolidation?.enabled`. -/
def enabledOf : Option MemoryConsolidationConfig → Bool
  | none => false
  | some cc => cc.enabled

structure CronPayload where
  kind : String
  message : String
  model : Option String
  thinking : Option String
  timeoutSeconds : Nat
deriving DecidableEq, Repr

/-- Schedule descriptor `\x7b kind, at \x7d`; the TS field `at` is a reserved
word in Lean, so it is named `atIso` here. -/
structure CronSchedule where
  kind : String
  atIso : String
deriving DecidableEq, Repr

structure CronJob where
  id : String
  name : String
  enabled : Bool
  createdAtMs : Nat
  updatedAtMs : Nat
  schedule : CronSchedule
  sessionTarget : String
  wakeMode : String
  payload : CronPayload
  deliveryMode : String
  nextRunAtMs : Nat
deriving DecidableEq, Repr

structure CronStore where
  jobs : List CronJob
deriving DecidableEq, Repr

structure GatewayRequest where
  method : String
  message : String
  sessionKey : String
  deliver : Bool
  idempotencyKey : String
  timeoutMs : Nat
deriving DecidableEq, Repr

/-- Observable side effects of one trigger invocation. -/
inductive Effect
  | storeSave (path : String) (store : CronStore)
  | heartbeat (reason : String)
  | gateway (req : GatewayRequest)
deriving DecidableEq, Repr

/-- Outcome of a handler that completed normally: the attempted effects,
and the error it caught and logged, if any. -/
structure HandlerResult where
  effects : List Effect
  loggedError : Option String
deriving DecidableEq, Repr

/-- Handler computations that may throw: an uncaught error carries the
effects attempted before the throw. -/
abbrev HandlerM (α : Type) := Except (List Effect × String) α

/-- Effects attempted by a handler run, whether or not it threw. -/
def handlerEffects : HandlerM HandlerResult → List Effect
  | .ok r => r.effects
  | .error (effs, _) => effs

/-! Prompt rendering (from `memory-consolidation.ts`) -/

/-- The `DEFAULT_PROMPT` template of `memory-consolidation.ts` (Strategy B). -/
def DEFAULT_PROMPT : String :=
  "记忆整理任务：会话 {sessionId} 刚刚结束并被重置。\n\n请执行：\n1. 读取 session log (~/.openclaw/agents/main/sessions/{sessionId}.jsonl)\n2. 提取关键对话、决策、事件\n3. 写入 memory/{date}.md\n4. 如有重要长期洞察，更新 MEMORY.md\n\n保持简洁，只记有价值的信息。"

/-- The three chained `.replace(/.../g, ...)` calls of `handleSessionReset`. -/
def renderPrompt (template sessionId sessionKey date : String) : String :=
  replaceAll (replaceAll (replaceAll template "{sessionId}" sessionId)
    "{sessionKey}" sessionKey) "{date}" date

/-! Strategy B: cron-based scheduling (`memory-consolidation.ts`) -/

/-- Environment of `handleSessionReset`: configuration snapshot, host
clock, store path resolution, and the outcomes of the external cron-store
load/save calls (which may throw). -/
structure EnvB where
  consolidation : Option MemoryConsolidationConfig
  nowMs : Nat
  today : String
  isoOfMs : Nat → String
  storePath : String
  loadResult : Except String CronStore
  saveResult : Except String Unit

/-- Argument record of `scheduleConsolidationJob`. -/
structure SchedParams where
  sessionId : String
  sessionKey : String
  prompt : String
  model : Option String
  thinking : Option String
  timeoutSeconds : Nat
deriving DecidableEq, Repr

def consolidationJobId (sessionId : String) : String :=
  "memory-consolidation-" ++ sessionId

/-- The `CronJob` literal built inside `scheduleConsolidationJob`. -/
def mkConsolidationJob (env : EnvB) (params : SchedParams) : CronJob :=
  { id := consolidationJobId params.sessionId
    name := "Memory consolidation: " ++ params.sessionId.take 8
    enabled := true
    createdAtMs := env.nowMs
    updatedAtMs := env.nowMs
    schedule := { kind := "at", atIso := env.isoOfMs env.nowMs }
    sessionTarget := "isolated"
    wakeMode := "now"
    payload :=
      { kind := "agentTurn", message := params.prompt, model := params.model,
        thinking := params.thinking, timeoutSeconds := params.timeoutSeconds }
    deliveryMode := "announce"
    nextRunAtMs := env.nowMs }

/-- The store mutation of `scheduleConsolidationJob`: drop every job with
the consolidation job id, then push the new job. -/
def upsertConsolidationJob (env : EnvB) (params : SchedParams)
    (store : CronStore) : CronStore :=
  { jobs := store.jobs.filter (fun j => j.id != consolidationJobId params.sessionId)
      ++ [mkConsolidationJob env params] }

/-- Function `scheduleConsolidationJob`: load the store, upsert, save.  A throw from
`loadCronStore` or `saveCronStore` propagates to the caller. -/
def scheduleConsolidationJob (env : EnvB) (params : SchedParams) :
    HandlerM (List Effect) :=
  match env.loadResult with
  | .error e => .error ([], e)
  | .ok store =>
    let newStore := upsertConsolidationJob env params store
    match env.saveResult with
    | .error e => .error ([Effect.storeSave env.storePath newStore], e)
    | .ok _ => .ok [Effect.storeSave env.storePath newStore]

/-- Handler `handleSessionReset` of `memory-consolidation.ts`: gate on the enabled
flag and on a usable previous session, render the prompt, then
try-schedule + heartbeat, catching (and logging) any scheduling error. -/
def handleSessionReset (env : EnvB) (event : HookEvent) : HandlerM HandlerResult :=
  match env.consolidation with
  | none => .ok { effects := [], loggedError := none }
  | some cc =>
    if !cc.enabled then .ok { effects := [], loggedError := none }
    else
      match event.context.previousSessionEntry with
      | none => .ok { effects := [], loggedError := none }
      | some entry =>
        if entry.sessionId == "" then .ok { effects := [], loggedError := none }
        else
          let sessionId := entry.sessionId
          let sessionKey := event.sessionKey
          let promptTemplate :=
            match cc.prompt with
            | none => DEFAULT_PROMPT
            | some p => if p == "" then DEFAULT_PROMPT else p
          let prompt := renderPrompt promptTemplate sessionId sessionKey env.today
          let params : SchedParams :=
            { sessionId := sessionId, sessionKey := sessionKey, prompt := prompt,
              model := cc.model, thinking := cc.thinking,
              timeoutSeconds := cc.timeoutSeconds.getD 120 }
          match scheduleConsolidationJob env params with
          | .error (effs, e) => .ok { effects := effs, loggedError := some e }
          | .ok effs =>
            .ok { effects := effs ++ [Effect.heartbeat "memory-consolidation"],
                  loggedError := none }

/-! Strategy A: direct gateway dispatch (`bundled/session-memory/handler.ts`) -/

/-- Environment of `spawnMemoryConsolidation`: the ambient configuration
(which this handler never reads), the externally defined agent-id
resolution `normalizeAgentId(resolveAgentIdFromSessionKey(...))`, the two
`crypto.randomUUID()` draws in call order, the host date, and the outcome
of the external `callGateway` call. -/
structure EnvA where
  consolidation : Option MemoryConsolidationConfig
  agentIdOf : String → String
  uuid1 : String
  uuid2 : String
  today : String
  gatewayResult : Except String Unit

/-- Function `buildConsolidationPrompt` of `handler.ts` (template literal with
`sessionFile` and `date` interpolations; `sessionKey` is accepted but not
referenced by the template). -/
def buildConsolidationPrompt (sessionFile sessionKey date : String) : String :=
  "# Memory Consolidation Task\n\nYou are consolidating memories from a previous session. Your job is to:\n\n1. Read the session log at: "
    ++ sessionFile
    ++ "\n2. Extract important information worth remembering\n3. Update the appropriate memory files\n\n## CRITICAL: How to read the session log\nSession logs can be 500KB+. You MUST use chunked reading:\n\n1. First check size: `wc -c "
    ++ sessionFile
    ++ "`\n2. If > 50KB, use: `tail -300 "
    ++ sessionFile
    ++ "` to get recent messages\n3. NEVER read the entire file at once — it will cause connection timeouts\n4. Parse the JSONL format: each line is a message object with role/content\n5. Focus on user messages and assistant responses, skip verbose tool outputs\n\n## What to extract:\n- Key decisions made\n- Important events or milestones\n- Lessons learned or insights\n- User preferences or requests to remember\n- Project updates or status changes\n- Any \"remember this\" moments\n\n## Where to write:\n- `memory/"
    ++ date
    ++ ".md` — Daily log (what happened today)\n- `MEMORY.md` — Long-term memories (significant patterns, lessons, relationships)\n- `USER.md` — User-specific info (preferences, habits, context)\n- `SELF-REVIEW.md` — Mistakes made and lessons (if any)\n\n## Rules:\n- Merge with existing content, don\x27t overwrite\n- Skip trivial conversations (greetings, small talk)\n- Write in the same style as existing memory files\n- Be concise but capture what matters\n- If nothing significant happened, just report \"No significant updates\"\n\n## Output:\nWhen done, briefly report what you updated (or that nothing needed updating).\nDo NOT send any messages to the user - this is a silent background task."

/-- Resolution `context.previousSessionEntry || context.sessionEntry || empty`. -/
def resolvedSessionEntry (event : HookEvent) : SessionEntry :=
  match event.context.previousSessionEntry with
  | some e => e
  | none =>
    match event.context.sessionEntry with
    | some e => e
    | none => { sessionId := "", sessionFile := "" }

/-- The `callGateway` request built by `spawnMemoryConsolidation`. -/
def consolidationRequest (env : EnvA) (event : HookEvent) : GatewayRequest :=
  let entry := resolvedSessionEntry event
  { method := "agent"
    message := buildConsolidationPrompt entry.sessionFile event.sessionKey env.today
    sessionKey := "agent:" ++ env.agentIdOf event.sessionKey
      ++ ":subagent:memory-consolidation:" ++ env.uuid1
    deliver := false
    idempotencyKey := env.uuid2
    timeoutMs := 600000 }

/-- The condition under which `spawnMemoryConsolidation` reaches its
`callGateway` call (derived below, not assumed). -/
def dispatchGuard (event : HookEvent) : Bool :=
  let entry := resolvedSessionEntry event
  event.type == "command" && event.action == "new"
    && !(entry.sessionId == "") && !(entry.sessionId == "unknown")
    && !(entry.sessionFile == "")

/-- Handler `spawnMemoryConsolidation` of `handler.ts`: return unless the event is
`command`/`new`; inside a try/catch, resolve the previous session entry
(falling back to `context.sessionEntry`), default a falsy session id to
`"unknown"`, skip when the id is `"unknown"` or the session file is empty,
otherwise call the gateway; any thrown error is caught and logged. -/
def spawnMemoryConsolidation (env : EnvA) (event : HookEvent) :
    HandlerM HandlerResult :=
  if event.type != "command" || event.action != "new" then
    .ok { effects := [], loggedError := none }
  else
    let entry := resolvedSessionEntry event
    let sessionId := if entry.sessionId == "" then "unknown" else entry.sessionId
    let sessionFile := entry.sessionFile
    if sessionId == "unknown" || sessionFile == "" then
      .ok { effects := [], loggedError := none }
    else
      let req := consolidationRequest env event
      match env.gatewayResult with
      | .error e => .ok { effects := [Effect.gateway req], loggedError := some e }
      | .ok _ => .ok { effects := [Effect.gateway req], loggedError := none }

/-! Fixtures for concrete scenarios -/

/-- The end-to-end scenario event of §8.7, with the new session key left
as a parameter. -/
def ev5 (sk : String) : HookEvent :=
  { type := "command", action := "new", sessionKey := sk,
    context :=
      { previousSessionEntry := some { sessionId := "s1", sessionFile := "/sessions/s1.jsonl" },
        sessionEntry := none } }

/-- Strategy A environment with the consolidation configuration present
but disabled. -/
def envA_cx : EnvA :=
  { consolidation := some
      { enabled := false, prompt := none, model := none, thinking := none,
        timeoutSeconds := none },
    agentIdOf := fun _ => "main", uuid1 := "u1", uuid2 := "u2",
    today := "2024-06-01", gatewayResult := .ok () }

/-- A qualifying `/new` event with a valid previous session. -/
def evA_cx : HookEvent :=
  { type := "command", action := "new", sessionKey := "agent:main:main",
    context :=
      { previousSessionEntry := some { sessionId := "s1", sessionFile := "/sessions/s1.jsonl" },
        sessionEntry := none } }

/-- Strategy B environment with consolidation enabled and a healthy empty
store. -/
def envB_cx : EnvB :=
  { consolidation := some
      { enabled := true, prompt := none, model := none, thinking := none,
        timeoutSeconds := none },
    nowMs := 0, today := "2024-06-01",
    isoOfMs := fun _ => "1970-01-01T00:00:00.000Z",
    storePath := "/cron.json", loadResult := .ok { jobs := [] },
    saveResult := .ok () }

/-- An event whose previous session id is the placeholder `"unknown"`. -/
def evB_cx : HookEvent :=
  { type := "command", action := "new", sessionKey := "agent:main:main",
    context :=
      { previousSessionEntry := some
          { sessionId := "unknown", sessionFile := "/sessions/unknown.jsonl" },
        sessionEntry := none } }

/-- Strategy A environment used to instantiate universally quantified
request-shape facts. -/
def envA0 : EnvA :=
  { consolidation := none, agentIdOf := fun _ => "main", uuid1 := "u1",
    uuid2 := "u2", today := "2024-06-01", gatewayResult := .ok () }

/-- An enabled consolidation configuration with all optional fields
absent. -/
def ccEnabled : MemoryConsolidationConfig :=
  { enabled := true, prompt := none, model := none, thinking := none,
    timeoutSeconds := none }

/-- Strategy B environment assembled from explicit parts, with an enabled
default configuration and healthy store calls. -/
def envB5 (nowMs : Nat) (today : String) (iso : Nat → String) (path : String)
    (store : CronStore) : EnvB :=
  { consolidation := some ccEnabled, nowMs := nowMs, today := today,
    isoOfMs := iso, storePath := path, loadResult := .ok store,
    saveResult := .ok () }

/-- Prefix of `DEFAULT_PROMPT` with the session id placeholder replaced by `"s1"`, up to the
`{date}` placeholder. -/
def defaultPromptS1Pre : String :=
  "记忆整理任务：会话 s1 刚刚结束并被重置。\n\n请执行：\n1. 读取 session log (~/.openclaw/agents/main/sessions/s1.jsonl)\n2. 提取关键对话、决策、事件\n3. 写入 memory/"

/-- Suffix of `DEFAULT_PROMPT` after the date placeholder. -/
def defaultPromptS1Post : String :=
  ".md\n4. 如有重要长期洞察，更新 MEMORY.md\n\n保持简洁，只记有价值的信息。"

/-- Whether a handler run completed without an uncaught throw. -/
def handlerOk : HandlerM HandlerResult → Bool
  | .ok _ => true
  | .error _ => false

/-- The condition under which `handleSessionReset` reaches its dispatch
step (enabled configuration and a usable previous session id). -/
def resetGuard (env : EnvB) (event : HookEvent) : Bool :=
  enabledOf env.consolidation &&
    (match event.context.previousSessionEntry with
     | some en => en.sessionId != ""
     | none => false)

/-- The `SchedParams` record `handleSessionReset` passes to
`scheduleConsolidationJob` (meaningful when the gates pass; the `getD`
defaults are never reached in that case). -/
def resetParams (env : EnvB) (ev : HookEvent) : SchedParams :=
  let cc := env.consolidation.getD
    { enabled := false, prompt := none, model := none, thinking := none,
      timeoutSeconds := none }
  let en := (ev.context.previousSessionEntry).getD { sessionId := "", sessionFile := "" }
  let promptTemplate :=
    match cc.prompt with
    | none => DEFAULT_PROMPT
    | some p => if p == "" then DEFAULT_PROMPT else p
  { sessionId := en.sessionId, sessionKey := ev.sessionKey,
    prompt := renderPrompt promptTemplate en.sessionId ev.sessionKey env.today,
    model := cc.model, thinking := cc.thinking,
    timeoutSeconds := cc.timeoutSeconds.getD 120 }

/-! Lemmas about the scanning primitives -/

theorem isPrefixL_self_append (p r : List Char) : isPrefixL p (p ++ r) = true := by
  induction p with
  | nil => simp [isPrefixL]
  | cons a as ih => simp [isPrefixL, ih]

theorem isPrefixL_append_of {p l : List Char} (r : List Char)
    (h : isPrefixL p l = true) : isPrefixL p (l ++ r) = true := by
  induction p generalizing l with
  | nil => simp [isPrefixL]
  | cons a as ih =>
    cases l with
    | nil => simp [isPrefixL] at h
    | cons b bs =>
      simp only [isPrefixL, Bool.and_eq_true] at h
      simp [isPrefixL, h.1, ih h.2]

theorem isSubL_nil_pat (r : List Char) : isSubL [] r = true := by
  cases r <;> simp [isSubL, isPrefixL, List.isEmpty]

theorem isSubL_append_L {pat l : List Char} (r : List Char)
    (h : isSubL pat l = true) : isSubL pat (l ++ r) = true := by
  induction l with
  | nil =>
    have : pat = [] := by
      cases pat with
      | nil => rfl
      | cons c cs => simp [isSubL, List.isEmpty] at h
    subst this
    exact isSubL_nil_pat r
  | cons c cs ih =>
    simp only [isSubL, Bool.or_eq_true] at h
    rcases h with h | h
    · have := isPrefixL_append_of (p := pat) (l := c :: cs) r h
      simp only [List.cons_append] at this
      simp [isSubL, this]
    · simp [isSubL, ih h]

theorem isSubL_append_R {pat r : List Char} (l : List Char)
    (h : isSubL pat r = true) : isSubL pat (l ++ r) = true := by
  induction l with
  | nil => simpa using h
  | cons c cs ih => simp [isSubL, ih]

theorem isSubL_refl (l : List Char) : isSubL l l = true := by
  cases l with
  | nil => simp [isSubL, List.isEmpty]
  | cons c cs =>
    have := isPrefixL_self_append (c :: cs) []
    simp only [List.append_nil] at this
    simp [isSubL, this]

/-! Lemmas about literal replacement -/

theorem replaceAllAux_of_not_sub (pat repl : List Char) :
    ∀ (fuel : Nat) (s : List Char), isSubL pat s = false →
      replaceAllAux pat repl fuel s = s := by
  intro fuel
  induction fuel with
  | zero => intro s _; cases s <;> simp [replaceAllAux]
  | succ n ih =>
    intro s h
    cases s with
    | nil => simp [replaceAllAux]
    | cons c cs =>
      simp only [isSubL, Bool.or_eq_false_iff] at h
      simp [replaceAllAux, h.1, ih cs h.2]

theorem replaceAllAux_skip (hd : Char) (pat' repl : List Char) :
    ∀ (xs : List Char) (fuel : Nat) (ys : List Char),
      (∀ c ∈ xs, (c == hd) = false) →
      isSubL (hd :: pat') ys = false →
      xs.length < fuel →
      replaceAllAux (hd :: pat') repl fuel (xs ++ (hd :: pat') ++ ys)
        = xs ++ repl ++ ys := by
  intro xs
  induction xs with
  | nil =>
    intro fuel ys _ hys hfuel
    cases fuel with
    | zero => omega
    | succ n =>
      have hpre : isPrefixL (hd :: pat') (hd :: (pat' ++ ys)) = true := by
        have := isPrefixL_self_append (hd :: pat') ys
        simpa using this
      have hdrop : (pat' ++ ys).drop ((hd :: pat').length - 1) = ys := by
        simp [List.drop_left]
      simp only [List.nil_append, List.cons_append]
      simp [replaceAllAux, hpre, hdrop, replaceAllAux_of_not_sub _ _ _ _ hys]
  | cons x xs ih =>
    intro fuel ys hxs hys hfuel
    cases fuel with
    | zero => simp at hfuel
    | succ n =>
      have hx : (x == hd) = false := hxs x (by simp)
      have hhd : (hd == x) = false := by
        cases h : hd == x
        · rfl
        · exfalso
          have : hd = x := by simpa using h
          subst this
          simp at hx
      have hpref : isPrefixL (hd :: pat') (x :: (xs ++ (hd :: pat') ++ ys)) = false := by
        simp [isPrefixL, hhd]
      have hrest := ih n ys (fun c hc => hxs c (by simp [hc]))
        hys (by simpa using Nat.lt_of_succ_lt_succ hfuel)
      simp only [List.cons_append, List.append_assoc] at hrest hpref ⊢
      simp [replaceAllAux, hpref, hrest]

/-! String-level lemmas -/

theorem mk_toList (s : String) : String.mk s.toList = s := by
  cases s
  rfl

theorem toList_append (a b : String) : (a ++ b).toList = a.toList ++ b.toList := rfl

theorem containsSubstr_app_left {a : String} (b : String) {sub : String}
    (h : containsSubstr a sub = true) : containsSubstr (a ++ b) sub = true := by
  unfold containsSubstr at h ⊢
  rw [toList_append]
  exact isSubL_append_L _ h

theorem containsSubstr_app_right {b : String} (a : String) {sub : String}
    (h : containsSubstr b sub = true) : containsSubstr (a ++ b) sub = true := by
  unfold containsSubstr at h ⊢
  rw [toList_append]
  exact isSubL_append_R _ h

theorem containsSubstr_rfl (s : String) : containsSubstr s s = true :=
  isSubL_refl s.toList

/-- A `$`-free literal global replace is the identity when the pattern
does not occur. -/
theorem replaceAll_not_contains (s pat repl : String)
    (h : containsSubstr s pat = false) : replaceAll s pat repl = s := by
  unfold replaceAll
  rw [replaceAllAux_of_not_sub _ _ _ _ h, mk_toList]

/-- Global replacement of a pattern that occurs exactly once, between a
prefix free of the pattern's head character and a suffix free of the
pattern. -/
theorem replaceAll_concat_single (pre pat post repl : String) (hd : Char)
    (pat' : List Char)
    (hpat : pat.toList = hd :: pat')
    (hpre : ∀ c ∈ pre.toList, (c == hd) = false)
    (hpost : isSubL (hd :: pat') post.toList = false) :
    replaceAll (pre ++ pat ++ post) pat repl = pre ++ repl ++ post := by
  unfold replaceAll
  rw [show (pre ++ pat ++ post).toList = pre.toList ++ pat.toList ++ post.toList from rfl]
  rw [hpat]
  rw [replaceAllAux_skip hd pat' repl.toList pre.toList _ post.toList hpre hpost
    (by simp [List.length_append])]
  rw [show pre.toList ++ repl.toList ++ post.toList = (pre ++ repl ++ post).toList from rfl]
  exact mk_toList _

/-! Lemmas about the job-store upsert -/

theorem filter_upsert (l : List CronJob) (i : String) (job : CronJob)
    (h : (job.id == i) = true) :
    ((l.filter (fun j => j.id != i)) ++ [job]).filter (fun j => j.id == i)
      = [job] := by
  induction l with
  | nil => simp [List.filter, h]
  | cons a l ih =>
    by_cases h2 : (a.id != i) = true
    · have h3 : (a.id == i) = false := by
        cases hb : a.id == i
        · rfl
        · simp [bne, hb] at h2
      simp [List.filter_cons, h2, h3] at ih ⊢
      exact ih
    · have h2' : (a.id != i) = false := by simpa using h2
      simp [List.filter_cons, h2'] at ih ⊢
      exact ih

theorem filter_ne_upsert (l : List CronJob) (i : String) (job : CronJob)
    (h : (job.id != i) = false) :
    ((l.filter (fun j => j.id != i)) ++ [job]).filter (fun j => j.id != i)
      = l.filter (fun j => j.id != i) := by
  induction l with
  | nil => simp [List.filter, h]
  | cons a l ih =>
    by_cases h2 : (a.id != i) = true
    · simp [List.filter_cons, h2] at ih ⊢
      exact ih
    · have h2' : (a.id != i) = false := by simpa using h2
      simp [List.filter_cons, h2'] at ih ⊢
      exact ih

/-! The default prompt rendered for session `"s1"` -/

theorem renderDefault_contains_s1 (sk today : String) :
    containsSubstr (renderPrompt DEFAULT_PROMPT "s1" sk today) "s1" = true := by
  have h1 : replaceAll DEFAULT_PROMPT "{sessionId}" "s1"
      = defaultPromptS1Pre ++ "{date}" ++ defaultPromptS1Post := by decide
  have h2 : containsSubstr (defaultPromptS1Pre ++ "{date}" ++ defaultPromptS1Post)
      "{sessionKey}" = false := by decide
  have h3 : replaceAll (defaultPromptS1Pre ++ "{date}" ++ defaultPromptS1Post)
      "{date}" today = defaultPromptS1Pre ++ today ++ defaultPromptS1Post :=
    replaceAll_concat_single defaultPromptS1Pre "{date}" defaultPromptS1Post today
      '\x7b' "date\x7d".toList (by decide) (by decide) (by decide)
  unfold renderPrompt
  rw [h1, replaceAll_not_contains _ _ _ h2, h3]
  apply containsSubstr_app_left
  apply containsSubstr_app_left
  decide

/-! Run equations for the two handlers -/

/-- Handler `spawnMemoryConsolidation` attempts exactly one gateway call when the
dispatch guard passes, and nothing otherwise. -/
theorem spawn_effects_eq (env : EnvA) (event : HookEvent) :
    handlerEffects (spawnMemoryConsolidation env event)
      = if dispatchGuard event then
          [Effect.gateway (consolidationRequest env event)]
        else [] := by
  by_cases h1 : event.type = "command"
  · by_cases h2 : event.action = "new"
    · by_cases h3 : (resolvedSessionEntry event).sessionId = ""
      · simp [spawnMemoryConsolidation, dispatchGuard, handlerEffects, h1, h2, h3]
      · by_cases h4 : (resolvedSessionEntry event).sessionId = "unknown"
        · simp [spawnMemoryConsolidation, dispatchGuard, handlerEffects, h1, h2, h3, h4]
        · by_cases h5 : (resolvedSessionEntry event).sessionFile = ""
          · simp [spawnMemoryConsolidation, dispatchGuard, handlerEffects, h1, h2, h3,
              h4, h5]
          · cases hg : env.gatewayResult <;>
              simp [spawnMemoryConsolidation, dispatchGuard, handlerEffects, h1, h2,
                h3, h4, h5, hg]
    · simp [spawnMemoryConsolidation, dispatchGuard, handlerEffects, h2]
  · simp [spawnMemoryConsolidation, dispatchGuard, handlerEffects, h1]

/-- Handler `handleSessionReset` reduces to an early no-op return unless the reset
guard passes, in which case it runs the schedule step on `resetParams` and
catches its error. -/
theorem reset_run_eq (env : EnvB) (ev : HookEvent) :
    handleSessionReset env ev =
      if resetGuard env ev then
        (match scheduleConsolidationJob env (resetParams env ev) with
          | .error (effs, e) => .ok { effects := effs, loggedError := some e }
          | .ok effs =>
            .ok { effects := effs ++ [Effect.heartbeat "memory-consolidation"],
                  loggedError := none })
      else .ok { effects := [], loggedError := none } := by
  unfold handleSessionReset resetGuard resetParams enabledOf
  rcases hC : env.consolidation with _ | cc
  · simp
  · cases hE : cc.enabled
    · simp [hE]
    · rcases hP : ev.context.previousSessionEntry with _ | en
      · simp [hE, hP]
      · by_cases hS : (en.sessionId == "") = true
        · have hS' : (en.sessionId != "") = false := by simp [bne, hS]
          simp [hE, hP, hS, hS']
        · have hS0 : (en.sessionId == "") = false := by simpa using hS
          have hS' : (en.sessionId != "") = true := by simp [bne, hS0]
          simp [hE, hP, hS0, hS']

/-! Claim theorems -/

/-- C1: scheduling a consolidation for a prior session id leaves exactly
one job with id `"memory-consolidation-" ++ sessionId` in the saved store
(namely the freshly built job), scheduling twice for the same session id
still leaves exactly one such job, and that job carries the second call's
payload. -/
theorem claim_C1_idempotent_replacement :
    ∀ (env env' : EnvB) (p q : SchedParams) (store : CronStore),
      ((upsertConsolidationJob env p store).jobs.filter
          (fun j => j.id == consolidationJobId p.sessionId)
        = [mkConsolidationJob env p])
      ∧ ((upsertConsolidationJob env' { q with sessionId := p.sessionId }
            (upsertConsolidationJob env p store)).jobs.filter
          (fun j => j.id == consolidationJobId p.sessionId)
        = [mkConsolidationJob env' { q with sessionId := p.sessionId }])
      ∧ (mkConsolidationJob env' { q with sessionId := p.sessionId }).payload
        = { kind := "agentTurn", message := q.prompt, model := q.model,
            thinking := q.thinking, timeoutSeconds := q.timeoutSeconds } := by
  intro env env' p q store
  refine ⟨?_, ?_, rfl⟩
  · apply filter_upsert
    simp [mkConsolidationJob]
  · apply filter_upsert
    simp [mkConsolidationJob]

/-- C6: the renderer substitutes all occurrences of `{sessionId}`,
`{sessionKey}` and `{date}` (checked on the spec's concrete instance and
on a template with repeated tokens), leaves unmatched placeholders such as
`{unknown}` unchanged, and acts as the identity on any template free of
the three tokens. -/
theorem claim_C6_placeholder_substitution :
    (renderPrompt "S={sessionId} K={sessionKey} D={date}" "abc123" "agent:main:default"
        "2024-06-01" = "S=abc123 K=agent:main:default D=2024-06-01")
    ∧ (renderPrompt "X={unknown} {date}/{date}" "a" "b" "2024-06-01"
        = "X={unknown} 2024-06-01/2024-06-01")
    ∧ (∀ template sessionId sessionKey date : String,
        containsSubstr template "{sessionId}" = false →
        containsSubstr template "{sessionKey}" = false →
        containsSubstr template "{date}" = false →
        renderPrompt template sessionId sessionKey date = template) := by
  refine ⟨by decide, by decide, ?_⟩
  intro template sid skey date h1 h2 h3
  unfold renderPrompt
  rw [replaceAll_not_contains _ _ _ h1, replaceAll_not_contains _ _ _ h2,
    replaceAll_not_contains _ _ _ h3]

/-- Witness for C6: the identity clause at the token-free template
`"hello"`. -/
theorem claim_C6_witness :
    containsSubstr "hello" "{sessionId}" = false ∧
    containsSubstr "hello" "{sessionKey}" = false ∧
    containsSubstr "hello" "{date}" = false ∧
    renderPrompt "hello" "x" "y" "z" = "hello" :=
  ⟨by decide, by decide, by decide,
    claim_C6_placeholder_substitution.2.2 "hello" "x" "y" "z" (by decide) (by decide)
      (by decide)⟩

/-- C7: the saved collection is the loaded one with every job of the new
job's id removed and the new job appended; jobs with a different id are
untouched and keep their relative order. -/
theorem claim_C7_replace_semantics_frame :
    ∀ (env : EnvB) (params : SchedParams) (store : CronStore),
      (upsertConsolidationJob env params store).jobs
        = store.jobs.filter (fun j => j.id != consolidationJobId params.sessionId)
          ++ [mkConsolidationJob env params]
      ∧ (upsertConsolidationJob env params store).jobs.filter
            (fun j => j.id != consolidationJobId params.sessionId)
        = store.jobs.filter (fun j => j.id != consolidationJobId params.sessionId) := by
  intro env params store
  refine ⟨rfl, ?_⟩
  apply filter_ne_upsert
  simp [mkConsolidationJob]

/-- Counterexample to C9: Strategy B's built-in `DEFAULT_PROMPT` contains
none of the large-file guards (`tail`, a `KB` threshold, a `300`-line
bound); it simply instructs reading the session log. -/
theorem claim_C9_counterexample :
    containsSubstr DEFAULT_PROMPT "tail" = false
    ∧ containsSubstr DEFAULT_PROMPT "KB" = false
    ∧ containsSubstr DEFAULT_PROMPT "300" = false
    ∧ containsSubstr DEFAULT_PROMPT "读取 session log" = true :=
  ⟨by decide, by decide, by decide, by decide⟩

/-- C9 amended: only Strategy A's built-in template instructs chunked
reading of the transcript (50KB threshold, `tail -300`, never reading the
whole file at once); this holds for every interpolated session file,
session key and date. -/
theorem claim_C9_amended_default_template :
    ∀ sessionFile sessionKey date : String,
      containsSubstr (buildConsolidationPrompt sessionFile sessionKey date)
          "If > 50KB, use: `tail -300 " = true
      ∧ containsSubstr (buildConsolidationPrompt sessionFile sessionKey date)
          "NEVER read the entire file at once" = true
      ∧ containsSubstr (buildConsolidationPrompt sessionFile sessionKey date)
          "You MUST use chunked reading" = true := by
  intro f k d
  unfold buildConsolidationPrompt
  refine ⟨?_, ?_, ?_⟩
  · apply containsSubstr_app_left
    apply containsSubstr_app_left
    apply containsSubstr_app_left
    apply containsSubstr_app_left
    apply containsSubstr_app_right
    decide
  · apply containsSubstr_app_left
    apply containsSubstr_app_left
    apply containsSubstr_app_right
    decide
  · apply containsSubstr_app_left
    apply containsSubstr_app_left
    apply containsSubstr_app_left
    apply containsSubstr_app_left
    apply containsSubstr_app_left
    apply containsSubstr_app_left
    apply containsSubstr_app_right
    decide

/-- C10: the direct-dispatch handler issues its gateway call exactly when
the event is `command`/`new`, the resolved previous session id (after the
`sessionEntry` fallback and the falsy-to-`"unknown"` defaulting) is
non-empty and not `"unknown"`, and the session file is non-empty; in every
other case it performs no side effects. -/
theorem claim_C10_dispatch_guard (env : EnvA) (event : HookEvent) :
    handlerEffects (spawnMemoryConsolidation env event)
      = if dispatchGuard event then
          [Effect.gateway (consolidationRequest env event)]
        else [] :=
  spawn_effects_eq env event

/-- C2: both triggers complete normally for every environment, including
those whose store write or gateway call throws; when the throwing step is
reached, the thrown message is recorded as the logged error. -/
theorem claim_C2_failure_isolation :
    (∀ (envB : EnvB) (evB : HookEvent), handlerOk (handleSessionReset envB evB) = true)
    ∧ (∀ (envA : EnvA) (evA : HookEvent),
        handlerOk (spawnMemoryConsolidation envA evA) = true)
    ∧ (∀ (envB : EnvB) (evB : HookEvent) (e : String) (store : CronStore),
        ∃ r, handleSessionReset
            { envB with loadResult := .ok store, saveResult := .error e } evB = .ok r
          ∧ r.loggedError = (if resetGuard envB evB then some e else none))
    ∧ (∀ (envA : EnvA) (evA : HookEvent) (e : String),
        ∃ r, spawnMemoryConsolidation { envA with gatewayResult := .error e } evA = .ok r
          ∧ r.loggedError = (if dispatchGuard evA then some e else none)) := by
  refine ⟨?_, ?_, ?_, ?_⟩
  · intro envB evB
    rw [reset_run_eq]
    split
    · rcases hs : scheduleConsolidationJob envB (resetParams envB evB) with ⟨effs, e⟩ | effs <;>
        simp [hs, handlerOk]
    · rfl
  · intro envA evA
    by_cases h1 : evA.type = "command"
    · by_cases h2 : evA.action = "new"
      · by_cases h3 : (resolvedSessionEntry evA).sessionId = ""
        · simp [spawnMemoryConsolidation, handlerOk, h1, h2, h3]
        · by_cases h4 : (resolvedSessionEntry evA).sessionId = "unknown"
          · simp [spawnMemoryConsolidation, handlerOk, h1, h2, h3, h4]
          · by_cases h5 : (resolvedSessionEntry evA).sessionFile = ""
            · simp [spawnMemoryConsolidation, handlerOk, h1, h2, h3, h5]
            · cases hg : envA.gatewayResult <;>
                simp [spawnMemoryConsolidation, handlerOk, h1, h2, h3, h4, h5, hg]
      · simp [spawnMemoryConsolidation, handlerOk, h2]
    · simp [spawnMemoryConsolidation, handlerOk, h1]
  · intro envB evB e store
    obtain ⟨cons, nowMs, today, iso, path, lr, sr⟩ := envB
    rw [reset_run_eq]
    by_cases hR : resetGuard ⟨cons, nowMs, today, iso, path, lr, sr⟩ evB = true
    · have hR' : resetGuard
          ⟨cons, nowMs, today, iso, path, Except.ok store, Except.error e⟩ evB = true := hR
      rw [if_pos hR', if_pos hR]
      exact ⟨_, rfl, rfl⟩
    · have hR0 : resetGuard ⟨cons, nowMs, today, iso, path, lr, sr⟩ evB = false := by
        simpa using hR
      have hR' : resetGuard
          ⟨cons, nowMs, today, iso, path, Except.ok store, Except.error e⟩ evB = false := hR0
      rw [if_neg (by simp [hR']), if_neg (by simp [hR0])]
      exact ⟨_, rfl, rfl⟩
  · intro envA evA e
    obtain ⟨cons, aid, u1, u2, td, gw⟩ := envA
    by_cases h1 : evA.type = "command"
    · by_cases h2 : evA.action = "new"
      · by_cases h3 : (resolvedSessionEntry evA).sessionId = ""
        · refine ⟨{ effects := [], loggedError := none }, ?_, ?_⟩
          · simp [spawnMemoryConsolidation, h1, h2, h3]
          · simp [dispatchGuard, h3]
        · by_cases h4 : (resolvedSessionEntry evA).sessionId = "unknown"
          · refine ⟨{ effects := [], loggedError := none }, ?_, ?_⟩
            · simp [spawnMemoryConsolidation, h1, h2, h3, h4]
            · simp [dispatchGuard, h4]
          · by_cases h5 : (resolvedSessionEntry evA).sessionFile = ""
            · refine ⟨{ effects := [], loggedError := none }, ?_, ?_⟩
              · simp [spawnMemoryConsolidation, h1, h2, h3, h5]
              · simp [dispatchGuard, h5]
            · refine ⟨{ effects := [Effect.gateway (consolidationRequest (EnvA.mk cons aid u1 u2 td (Except.error e)) evA)], loggedError := some e }, ?_, ?_⟩
              · simp [spawnMemoryConsolidation, h1, h2, h3, h4, h5]
              · simp [dispatchGuard, h1, h2, h3, h4, h5]
      · refine ⟨{ effects := [], loggedError := none }, ?_, ?_⟩
        · simp [spawnMemoryConsolidation, h2]
        · simp [dispatchGuard, h2]
    · refine ⟨{ effects := [], loggedError := none }, ?_, ?_⟩
      · simp [spawnMemoryConsolidation, h1]
      · simp [dispatchGuard, h1]

/-- Counterexample to C3: with the consolidation configuration present
and disabled, the direct-dispatch handler (Strategy A) still performs a
gateway call on a qualifying event. -/
theorem claim_C3_counterexample :
    envA_cx.consolidation
        = some { enabled := false, prompt := none, model := none, thinking := none,
                 timeoutSeconds := none }
    ∧ handlerEffects (spawnMemoryConsolidation envA_cx evA_cx)
        = [Effect.gateway (consolidationRequest envA_cx evA_cx)]
    ∧ handlerEffects (spawnMemoryConsolidation envA_cx evA_cx) ≠ [] := by
  have hg : dispatchGuard evA_cx = true := by decide
  refine ⟨rfl, ?_, ?_⟩
  · rw [spawn_effects_eq, if_pos hg]
  · rw [spawn_effects_eq, if_pos hg]
    simp

/-- C3 amended: the no-op on a disabled (or absent) configuration holds
for Strategy B, which performs no effect at all; Strategy A never reads
the consolidation configuration, so its behaviour is identical under
every configuration value. -/
theorem claim_C3_amended_noop_disabled :
    ∀ (env : EnvB) (ev : HookEvent) (cc : MemoryConsolidationConfig)
      (envA : EnvA) (c : Option MemoryConsolidationConfig),
      handlerEffects (handleSessionReset { env with consolidation := none } ev) = []
      ∧ handlerEffects (handleSessionReset
          { env with consolidation := some { cc with enabled := false } } ev) = []
      ∧ spawnMemoryConsolidation { envA with consolidation := c } ev
        = spawnMemoryConsolidation envA ev := by
  intro env ev cc envA c
  refine ⟨rfl, rfl, ?_⟩
  cases envA
  rfl

/-- Counterexample to C4: Strategy B does not treat the placeholder
session id `"unknown"` as missing; with consolidation enabled it writes
the store and emits a wake signal for such an event. -/
theorem claim_C4_counterexample :
    evB_cx.context.previousSessionEntry
        = some { sessionId := "unknown", sessionFile := "/sessions/unknown.jsonl" }
    ∧ enabledOf envB_cx.consolidation = true
    ∧ handlerEffects (handleSessionReset envB_cx evB_cx) ≠ [] := by
  have hg : resetGuard envB_cx evB_cx = true := by decide
  refine ⟨rfl, rfl, ?_⟩
  rw [reset_run_eq, if_pos hg]
  have hs : scheduleConsolidationJob envB_cx (resetParams envB_cx evB_cx)
      = .ok [Effect.storeSave envB_cx.storePath
          (upsertConsolidationJob envB_cx (resetParams envB_cx evB_cx) { jobs := [] })] := by
    rfl
  rw [hs]
  simp [handlerEffects]

/-- C4 amended: Strategy B performs no side effect when the previous
session entry is absent or its id is empty (but does act on `"unknown"`);
Strategy A performs no side effect when the resolved entry's id is empty
or `"unknown"`, when its session file is empty, or when the context
carries no entry at all (its resolution falls back to
`context.sessionEntry` before giving up). -/
theorem claim_C4_amended_noop_missing_session :
    ∀ (env : EnvB) (envA : EnvA) (type action sk f sid : String)
      (se : Option SessionEntry),
      handlerEffects (handleSessionReset env
          { type := type, action := action, sessionKey := sk,
            context := { previousSessionEntry := none, sessionEntry := se } }) = []
      ∧ handlerEffects (handleSessionReset env
          { type := type, action := action, sessionKey := sk,
            context := { previousSessionEntry := some { sessionId := "", sessionFile := f },
                         sessionEntry := se } }) = []
      ∧ handlerEffects (spawnMemoryConsolidation envA
          { type := type, action := action, sessionKey := sk,
            context := { previousSessionEntry := some { sessionId := "", sessionFile := f },
                         sessionEntry := se } }) = []
      ∧ handlerEffects (spawnMemoryConsolidation envA
          { type := type, action := action, sessionKey := sk,
            context := { previousSessionEntry := some { sessionId := "unknown", sessionFile := f },
                         sessionEntry := se } }) = []
      ∧ handlerEffects (spawnMemoryConsolidation envA
          { type := type, action := action, sessionKey := sk,
            context := { previousSessionEntry := some { sessionId := sid, sessionFile := "" },
                         sessionEntry := se } }) = []
      ∧ handlerEffects (spawnMemoryConsolidation envA
          { type := type, action := action, sessionKey := sk,
            context := { previousSessionEntry := none, sessionEntry := none } }) = [] := by
  intro env envA type action sk f sid se
  refine ⟨?_, ?_, ?_, ?_, ?_, ?_⟩
  · rw [reset_run_eq]
    have hg : resetGuard env
        { type := type, action := action, sessionKey := sk,
          context := { previousSessionEntry := none, sessionEntry := se } } = false := by
      simp [resetGuard]
    rw [if_neg (by simp [hg])]
    rfl
  · rw [reset_run_eq]
    have hg : resetGuard env
        { type := type, action := action, sessionKey := sk,
          context := { previousSessionEntry := some { sessionId := "", sessionFile := f },
                       sessionEntry := se } } = false := by
      simp [resetGuard]
    rw [if_neg (by simp [hg])]
    rfl
  · rw [spawn_effects_eq]
    rw [if_neg (by simp [dispatchGuard, resolvedSessionEntry])]
  · rw [spawn_effects_eq]
    rw [if_neg (by simp [dispatchGuard, resolvedSessionEntry])]
  · rw [spawn_effects_eq]
    rw [if_neg (by simp [dispatchGuard, resolvedSessionEntry])]
  · rw [spawn_effects_eq]
    rw [if_neg (by simp [dispatchGuard, resolvedSessionEntry])]

/-- C5: for the spec's end-to-end event with consolidation enabled and no
custom prompt, the trigger saves a store holding exactly one job with id
`"memory-consolidation-s1"`, whose schedule kind is `"at"`, session target
`"isolated"`, and whose payload message contains `"s1"`; it then emits the
wake signal. -/
theorem claim_C5_end_to_end :
    ∀ (env : EnvB) (store : CronStore) (sk : String),
      ∃ job saved,
        handleSessionReset
            { env with
              consolidation := some
                { enabled := true, prompt := none, model := none, thinking := none,
                  timeoutSeconds := none },
              loadResult := .ok store, saveResult := .ok () } (ev5 sk)
          = .ok { effects := [Effect.storeSave env.storePath saved,
                              Effect.heartbeat "memory-consolidation"],
                  loggedError := none }
        ∧ saved.jobs.filter (fun j => j.id == "memory-consolidation-s1") = [job]
        ∧ job.id = "memory-consolidation-s1"
        ∧ job.schedule.kind = "at"
        ∧ job.sessionTarget = "isolated"
        ∧ containsSubstr job.payload.message "s1" = true := by
  intro env store sk
  obtain ⟨cons, nowMs, today, iso, path, lr, sr⟩ := env
  refine ⟨mkConsolidationJob (envB5 nowMs today iso path store)
      (resetParams (envB5 nowMs today iso path store) (ev5 sk)),
    upsertConsolidationJob (envB5 nowMs today iso path store)
      (resetParams (envB5 nowMs today iso path store) (ev5 sk)) store,
    ?_, ?_, rfl, rfl, rfl, ?_⟩
  · show handleSessionReset (envB5 nowMs today iso path store) (ev5 sk) = _
    rw [reset_run_eq]
    rw [if_pos (show resetGuard (envB5 nowMs today iso path store) (ev5 sk) = true
      from rfl)]
    rfl
  · show (upsertConsolidationJob (envB5 nowMs today iso path store)
        (resetParams (envB5 nowMs today iso path store) (ev5 sk)) store).jobs.filter
        (fun j => j.id == "memory-consolidation-s1")
      = [mkConsolidationJob (envB5 nowMs today iso path store)
          (resetParams (envB5 nowMs today iso path store) (ev5 sk))]
    unfold upsertConsolidationJob
    have h2 : consolidationJobId
        (resetParams (envB5 nowMs today iso path store) (ev5 sk)).sessionId
        = "memory-consolidation-s1" := rfl
    simp only [h2]
    apply filter_upsert
    rfl
  · exact renderDefault_contains_s1 sk today

/-- C8: on a qualifying event, Strategy A issues exactly one gateway
request with `deliver = false`, the freshly drawn idempotency key, a
session key embedding both the `"memory-consolidation"` marker and the
fresh random component, and a 600000 ms timeout. -/
theorem claim_C8_request_shape :
    ∀ (env : EnvA) (sid f sk : String),
      sid ≠ "" → sid ≠ "unknown" → f ≠ "" →
      ∃ req,
        handlerEffects (spawnMemoryConsolidation env
            { type := "command", action := "new", sessionKey := sk,
              context := { previousSessionEntry := some { sessionId := sid, sessionFile := f },
                           sessionEntry := none } }) = [Effect.gateway req]
        ∧ req.method = "agent"
        ∧ req.deliver = false
        ∧ req.timeoutMs = 600000
        ∧ req.idempotencyKey = env.uuid2
        ∧ containsSubstr req.sessionKey "memory-consolidation" = true
        ∧ containsSubstr req.sessionKey env.uuid1 = true := by
  intro env sid f sk h1 h2 h3
  refine ⟨consolidationRequest env
      { type := "command", action := "new", sessionKey := sk,
        context := { previousSessionEntry := some { sessionId := sid, sessionFile := f },
                     sessionEntry := none } }, ?_, rfl, rfl, rfl, rfl, ?_, ?_⟩
  · rw [spawn_effects_eq]
    rw [if_pos (show dispatchGuard _ = true by
      simp [dispatchGuard, resolvedSessionEntry, h1, h2, h3])]
  · show containsSubstr
        ("agent:" ++ env.agentIdOf sk ++ ":subagent:memory-consolidation:" ++ env.uuid1)
        "memory-consolidation" = true
    apply containsSubstr_app_left
    apply containsSubstr_app_right
    decide
  · show containsSubstr
        ("agent:" ++ env.agentIdOf sk ++ ":subagent:memory-consolidation:" ++ env.uuid1)
        env.uuid1 = true
    apply containsSubstr_app_right
    exact containsSubstr_rfl _

/-- Witness for C8 at a concrete environment and event. -/
theorem claim_C8_witness :
    ("s1" ≠ "") ∧ ("s1" ≠ "unknown") ∧ ("/f" ≠ "") ∧
    (∃ req,
      handlerEffects (spawnMemoryConsolidation envA0
          { type := "command", action := "new", sessionKey := "k",
            context := { previousSessionEntry := some { sessionId := "s1", sessionFile := "/f" },
                         sessionEntry := none } }) = [Effect.gateway req]
      ∧ req.method = "agent"
      ∧ req.deliver = false
      ∧ req.timeoutMs = 600000
      ∧ req.idempotencyKey = envA0.uuid2
      ∧ containsSubstr req.sessionKey "memory-consolidation" = true
      ∧ containsSubstr req.sessionKey envA0.uuid1 = true) :=
  ⟨by decide, by decide, by decide,
    claim_C8_request_shape envA0 "s1" "/f" "k" (by decide) (by decide) (by decide)⟩

end OpenClaw
